import Mathlib

/-!
Verification of the MESH generic receiver (`examples/receivers/generic-receiver.py`):
a shallow embedding of the envelope-handling pipeline — decode, audit log, inbox
buffer, handler dispatch, reply routing, acknowledgment — together with theorems
settling the specification's claims about it.

Modelling conventions:
* Python/JSON values are the inductive `Json` below; Python `None` is `Json.null`
  (in Python, `json.loads("null")` and the absent-value sentinel are the same object).
* `json.loads` on nested strings is an abstract parameter `loads : String → Option Json`
  (`none` = `json.JSONDecodeError`); the outer request body is modelled post-parse as
  an `Option Json` for the same reason.
* A Python expression that can raise an uncaught exception is embedded in
  `Except PyErr`; exceptions the source catches are absorbed exactly where the
  source's `try/except` blocks sit.
* Nondeterministic inputs (clock, `os.urandom` nonce, subprocess outcome, network
  delivery outcome) are explicit parameters.
-/

/-- A JSON value, doubling as the Python value universe the receiver manipulates
(dicts, lists, str, int, bool, None). Numbers are modelled as integers: no claim
involves fractional numeric values. -/
inductive Json where
  | null
  | bool (b : Bool)
  | num (n : Int)
  | str (s : String)
  | arr (elems : List Json)
  | obj (fields : List (String × Json))

/-- Python truthiness (`if value:`): `None`, `False`, `0`, `""`, `[]`, and
an empty dict are falsy; everything else is truthy. -/
def Json.truthy : Json → Bool
  | .null => false
  | .bool b => b
  | .num n => n != 0
  | .str s => s != ""
  | .arr xs => !xs.isEmpty
  | .obj fs => !fs.isEmpty

/-- Dictionary key lookup returning `none` when the value is not a dict or the
key is absent (used to model subscript-style access inside caught regions). -/
def Json.lookup : Json → String → Option Json
  | .obj fs, k => List.lookup k fs
  | _, _ => none

/-- An uncaught Python exception class relevant to this program. -/
inductive PyErr where
  | attributeError
  | typeError
deriving DecidableEq, Repr

/-- Python `value.get(key, default)`: succeeds on dicts, raises `AttributeError`
on every other value (str/int/list/None have no `.get`). -/
def Json.get (j : Json) (k : String) (d : Json) : Except PyErr Json :=
  match j with
  | .obj fs => .ok ((List.lookup k fs).getD d)
  | _ => .error .attributeError

/-- The double-quote character, built by code point to keep literals simple. -/
def dquot : String := String.singleton (Char.ofNat 34)

/-- The single-quote character (Python `repr` quoting). -/
def squot : String := String.singleton (Char.ofNat 39)

/-- JSON string escaping for one character, as `json.dumps` performs it on the
characters this program exercises (`\u` escaping of other control/non-ASCII
characters is omitted: no claim depends on it). -/
def jsonEscapeChar (c : Char) : String :=
  if c = Char.ofNat 34 then String.mk [Char.ofNat 92, Char.ofNat 34]
  else if c = Char.ofNat 92 then String.mk [Char.ofNat 92, Char.ofNat 92]
  else if c = Char.ofNat 10 then String.mk [Char.ofNat 92, Char.ofNat 110]
  else if c = Char.ofNat 13 then String.mk [Char.ofNat 92, Char.ofNat 114]
  else if c = Char.ofNat 9 then String.mk [Char.ofNat 92, Char.ofNat 116]
  else String.singleton c

/-- A JSON string literal: quoted and escaped. -/
def jsonQuote (s : String) : String :=
  dquot ++ String.join (s.data.map jsonEscapeChar) ++ dquot

mutual
/-- `json.dumps` with Python's default separators (`", "` and `": "`). -/
def Json.dumps : Json → String
  | .null => "null"
  | .bool true => "true"
  | .bool false => "false"
  | .num n => toString n
  | .str s => jsonQuote s
  | .arr xs => "[" ++ Json.dumpsList xs ++ "]"
  | .obj fs => "\x7b" ++ Json.dumpsFields fs ++ "\x7d"

/-- Comma-separated rendering of array elements. -/
def Json.dumpsList : List Json → String
  | [] => ""
  | [x] => Json.dumps x
  | x :: y :: rest => Json.dumps x ++ ", " ++ Json.dumpsList (y :: rest)

/-- Comma-separated rendering of object members. -/
def Json.dumpsFields : List (String × Json) → String
  | [] => ""
  | [(k, v)] => jsonQuote k ++ ": " ++ Json.dumps v
  | (k, v) :: f :: rest =>
      jsonQuote k ++ ": " ++ Json.dumps v ++ ", " ++ Json.dumpsFields (f :: rest)
end

mutual
/-- Python `repr` of a value, as used (via `str`) in f-string interpolation of
non-string values; string escaping inside `repr` is simplified to plain quoting
(no claim feeds a string needing escapes through `repr`). -/
def pyRepr : Json → String
  | .null => "None"
  | .bool true => "True"
  | .bool false => "False"
  | .num n => toString n
  | .str s => squot ++ s ++ squot
  | .arr xs => "[" ++ pyReprList xs ++ "]"
  | .obj fs => "\x7b" ++ pyReprFields fs ++ "\x7d"

/-- Comma-separated `repr` of list elements. -/
def pyReprList : List Json → String
  | [] => ""
  | [x] => pyRepr x
  | x :: y :: rest => pyRepr x ++ ", " ++ pyReprList (y :: rest)

/-- Comma-separated `repr` of dict members. -/
def pyReprFields : List (String × Json) → String
  | [] => ""
  | [(k, v)] => squot ++ k ++ squot ++ ": " ++ pyRepr v
  | (k, v) :: f :: rest =>
      squot ++ k ++ squot ++ ": " ++ pyRepr v ++ ", " ++ pyReprFields (f :: rest)
end

/-- Python `str(value)`: the string itself for strings, `repr`-style text for
the rest (as f-string interpolation performs). -/
def pyStr : Json → String
  | .str s => s
  | j => pyRepr j

/-- Python slicing `value[:n]`: defined on strings and lists, a `TypeError`
on anything else (models the console line `subject[:60]`). -/
def pySlice (j : Json) (n : Nat) : Except PyErr Json :=
  match j with
  | .str s => .ok (.str (s.take n))
  | .arr xs => .ok (.arr (xs.take n))
  | _ => .error .typeError

/-! ### Inbox buffer (`message_inbox`, `MAX_INBOX`, lines 111-114) -/

/-- `MAX_INBOX = 100`. -/
def MAX_INBOX : Nat := 100

/-- One receipt's effect on the inbox (lines 112-114):
`message_inbox.append(envelope); if len(message_inbox) > MAX_INBOX: message_inbox.pop(0)`.
The list front is the oldest entry. -/
def inbox_append (inbox : List Json) (envelope : Json) : List Json :=
  if (inbox ++ [envelope]).length > MAX_INBOX then (inbox ++ [envelope]).tail
  else inbox ++ [envelope]

/-! ### Audit sink (`log_message`, lines 35-51) -/

/-- The entry-building body of `log_message` (lines 39-47); the clock reading is
the parameter `ts`. Each `.get` can raise, which the enclosing `try` absorbs. -/
def log_entry (agent ts : String) (envelope : Json) (status : String) :
    Except PyErr Json :=
  match envelope.get "from" (Json.str "?") with
  | .error e => .error e
  | .ok f =>
  match envelope.get "to" (Json.str agent) with
  | .error e => .error e
  | .ok t =>
  match envelope.get "type" (Json.str "?") with
  | .error e => .error e
  | .ok ty =>
  match envelope.get "id" (Json.str "?") with
  | .error e => .error e
  | .ok i =>
  match envelope.get "payload" (Json.obj []) with
  | .error e => .error e
  | .ok p =>
  match p.get "subject" (Json.str "") with
  | .error e => .error e
  | .ok subj =>
    .ok (Json.obj [("ts", Json.str ts), ("from", f), ("to", t), ("type", ty),
      ("id", i), ("subject", subj), ("status", Json.str status)])

/-- `log_message` (lines 35-51): the audit entry appended to
`logs/mesh-audit.jsonl`, or `none` when the bare `except Exception: pass`
swallowed a failure (directory/file I/O is identified with success here; only
the caught-exception shape matters to the claims). -/
def log_message (agent ts : String) (envelope : Json) (status : String) :
    Option Json :=
  (log_entry agent ts envelope status).toOption

/-! ### Handler dispatcher (`dispatch_to_handler`, lines 54-74) -/

/-- Python `str.strip()` with no argument: remove leading and trailing
whitespace (implemented over the character list so it computes by reduction). -/
def pyStrip (s : String) : String :=
  String.mk (((s.data.dropWhile Char.isWhitespace).reverse.dropWhile
    Char.isWhitespace).reverse)

/-- Outcome of the `subprocess.run` call (line 59-65): either some exception was
raised (spawn failure, `TimeoutExpired`, ...) or the process completed with an
exit code and captured stdout. -/
inductive SubprocOutcome where
  | raised
  | completed (returncode : Int) (stdout : String)

/-- `dispatch_to_handler` (lines 54-74). First component: the Python return
value (`Json.null` is Python `None`, covering `return None` and handler stdout
`"null"` alike). Second component: instrumentation recording each envelope
passed to the external handler process via the `subprocess.run` call site, so
theorems can speak about handler invocations. `handler` is the `MESH_HANDLER`
environment value (`none` = unset; `some ""` is falsy, `if not HANDLER`). -/
def dispatch_to_handler (loads : String → Option Json) (handler : Option String)
    (run : SubprocOutcome) (envelope : Json) : Json × List Json :=
  match handler with
  | none => (Json.null, [])
  | some h =>
    if h = "" then (Json.null, [])
    else
      match run with
      | .raised => (Json.null, [envelope])
      | .completed rc out =>
        if rc = 0 ∧ pyStrip out ≠ "" then
          match loads (pyStrip out) with
          | some j => (j, [envelope])
          | none => (Json.obj [("body", Json.str (pyStrip out))], [envelope])
        else (Json.null, [envelope])

/-! ### Reply router (`MeshHandler._send_reply`, lines 157-187) -/

/-- The observable content of one `_send_reply` delivery attempt: the endpoint
and bearer token taken from `replyTo`, the constructed reply envelope, the
wire-format request body, and whether `urlopen` succeeded (the source catches
its failure and only logs it). -/
structure ReplyAttempt where
  url : Json
  authToken : Json
  envelope : Json
  wireBody : String
  delivered : Bool

/-- `_send_reply` (lines 157-187). The envelope dict literal (lines 160-173)
is evaluated before the `try`, so a non-dict `original` or `response` raises an
uncaught `AttributeError`; everything from `Request(...)` through `urlopen`
(lines 174-187) sits inside `try/except`, so `reply_to["url"]`/token access and
delivery failures are absorbed (modelled by total lookups plus the `deliverOk`
flag). `hex` is the `os.urandom(16).hex()` nonce, `ts` the clock reading. -/
def send_reply (agent ts hex : String) (deliverOk : Bool)
    (original response reply_to : Json) : Except PyErr ReplyAttempt :=
  match original.get "from" (Json.str "?") with
  | .error e => .error e
  | .ok origFrom =>
  match original.get "id" Json.null with
  | .error e => .error e
  | .ok origId =>
  match original.get "replyContext" Json.null with
  | .error e => .error e
  | .ok origCtx =>
  match original.get "payload" (Json.obj []) with
  | .error e => .error e
  | .ok origPayload =>
  match origPayload.get "subject" (Json.str "") with
  | .error e => .error e
  | .ok origSubject =>
  match response.get "body" (Json.str response.dumps) with
  | .error e => .error e
  | .ok bodyVal =>
    let reply_envelope := Json.obj [
      ("protocol", Json.str "mesh/1.0"),
      ("id", Json.str ("msg_" ++ hex)),
      ("timestamp", Json.str ts),
      ("from", Json.str agent),
      ("to", origFrom),
      ("type", Json.str "response"),
      ("correlationId", origId),
      ("replyContext", origCtx),
      ("payload", Json.obj [
        ("subject", Json.str ("Re: " ++ pyStr origSubject)),
        ("body", bodyVal)])]
    .ok { url := (reply_to.lookup "url").getD Json.null,
          authToken := (reply_to.lookup "token").getD (Json.str ""),
          envelope := reply_envelope,
          wireBody := Json.dumps (Json.obj
            [("message", Json.str reply_envelope.dumps)]),
          delivered := deliverOk }

/-! ### Envelope codec and POST pipeline (`MeshHandler.do_POST`, lines 82-129) -/

/-- Lines 95-99: `message_raw = data.get("message", "")` has already been
computed by the caller; a string is parsed with `json.loads`, with
`except json.JSONDecodeError` substituting the synthetic envelope
`{"payload": {"body": message_raw}}`; any other value is used as-is. -/
def decode_envelope (loads : String → Option Json) (message_raw : Json) : Json :=
  match message_raw with
  | .str s => (loads s).getD (Json.obj [("payload", Json.obj [("body", Json.str s)])])
  | j => j

/-- The fields lines 94-108 extract before logging. -/
structure Decoded where
  envelope : Json
  msg_id : Json
  msg_type : Json

/-- Lines 102-108 of `do_POST`: read `id`/`from`/`type`/`payload.subject`/
`payload.body` from the decoded envelope and evaluate the console line's
`subject[:60]` — each step may raise an uncaught exception. -/
def extract_fields (envelope : Json) : Except PyErr Decoded :=
  match envelope.get "id" (Json.str "?") with
  | .error e => .error e
  | .ok msg_id =>
  match envelope.get "from" (Json.str "?") with
  | .error e => .error e
  | .ok _sender =>
  match envelope.get "type" (Json.str "?") with
  | .error e => .error e
  | .ok msg_type =>
  match envelope.get "payload" (Json.obj []) with
  | .error e => .error e
  | .ok payload =>
  match payload.get "subject" (Json.str "") with
  | .error e => .error e
  | .ok subject =>
  match payload.get "body" (Json.str "") with
  | .error e => .error e
  | .ok _body_text =>
  match pySlice subject 60 with
  | .error e => .error e
  | .ok _console => .ok ⟨envelope, msg_id, msg_type⟩

/-- Lines 94-99 then 102-108: extract `message`, decode, extract fields. -/
def decode_fields (loads : String → Option Json) (data : Json) :
    Except PyErr Decoded :=
  match data.get "message" (Json.str "") with
  | .error e => .error e
  | .ok message_raw => extract_fields (decode_envelope loads message_raw)

/-- Python `msg_type == "request"` (line 120): string equality; any non-string
value compares unequal to a string. -/
def isRequestType : Json → Bool
  | .str s => s == "request"
  | _ => false

/-- Lines 119-123 of `do_POST`: `if response and msg_type == "request":` then
`reply_to = envelope.get("replyTo", {})`; `if reply_to and reply_to.get("url"):`
call `_send_reply`. Returns the list of reply attempts made (0 or 1). -/
def reply_phase (agent ts hex : String) (deliverOk : Bool)
    (envelope response msg_type : Json) : Except PyErr (List ReplyAttempt) :=
  if response.truthy ∧ isRequestType msg_type then
    match envelope.get "replyTo" (Json.obj []) with
    | .error e => .error e
    | .ok reply_to =>
      if reply_to.truthy then
        match reply_to.get "url" Json.null with
        | .error e => .error e
        | .ok url =>
          if url.truthy then
            match send_reply agent ts hex deliverOk envelope response reply_to with
            | .error e => .error e
            | .ok att => .ok [att]
          else .ok []
      else .ok []
  else .ok []

/-- The observable outcome of one successfully completed `do_POST` call. -/
structure PostResult where
  status : Nat
  body : String
  inbox : List Json
  auditLog : List Json
  handlerRuns : List Json
  repliesSent : List ReplyAttempt

/-- Lines 94-129 of `do_POST`, after the outer body parsed successfully:
decode and field extraction (lines 94-108), audit logging (line 109), inbox
append (lines 112-114), handler dispatch (line 117), conditional reply routing
(lines 119-123), and the unconditional 202 acknowledgment (lines 126-129). -/
def handle_parsed (loads : String → Option Json) (handler : Option String)
    (run : SubprocOutcome) (agent ts hex : String) (deliverOk : Bool)
    (inbox : List Json) (data : Json) : Except PyErr PostResult :=
  match decode_fields loads data with
  | .error e => .error e
  | .ok dec =>
    match reply_phase agent ts hex deliverOk dec.envelope
        (dispatch_to_handler loads handler run dec.envelope).1 dec.msg_type with
    | .error e => .error e
    | .ok replies =>
      .ok { status := 202,
            body := Json.dumps (Json.obj [("ok", Json.bool true), ("id", dec.msg_id)]),
            inbox := inbox_append inbox dec.envelope,
            auditLog := (log_message agent ts dec.envelope "received").toList,
            handlerRuns := (dispatch_to_handler loads handler run dec.envelope).2,
            repliesSent := replies }

/-- `MeshHandler.do_POST` (lines 82-129). `bodyParse` is `json.loads` applied
to the outer request body (`none` = `json.JSONDecodeError` → the 400 branch,
lines 88-92); a parsed body goes through `handle_parsed`. `.error` is an
uncaught Python exception escaping `do_POST` (the server then never sends
the 202). -/
def do_POST (loads : String → Option Json) (handler : Option String)
    (run : SubprocOutcome) (agent ts hex : String) (deliverOk : Bool)
    (inbox : List Json) (bodyParse : Option Json) : Except PyErr PostResult :=
  match bodyParse with
  | none =>
      .ok { status := 400, body := "\x7b" ++ dquot ++ "error" ++ dquot ++ ":"
              ++ dquot ++ "invalid JSON" ++ dquot ++ "\x7d",
            inbox := inbox, auditLog := [], handlerRuns := [], repliesSent := [] }
  | some data => handle_parsed loads handler run agent ts hex deliverOk inbox data

/-! ### Inversion lemmas -/

/-- A `.get` succeeds exactly on dicts, yielding the looked-up value or the
default. -/
theorem Json.get_ok_iff {j d v : Json} {k : String} :
    j.get k d = Except.ok v ↔ ∃ fs, j = Json.obj fs ∧ v = (List.lookup k fs).getD d := by
  cases j <;> simp [Json.get, eq_comm]

/-- Successful field extraction (lines 102-108) forces the envelope to be a
dict and determines the extracted `id` and `type`. -/
theorem extract_fields_ok {envelope : Json} {dec : Decoded}
    (h : extract_fields envelope = .ok dec) :
    ∃ efs, envelope = Json.obj efs ∧
      dec = ⟨envelope, (List.lookup "id" efs).getD (Json.str "?"),
             (List.lookup "type" efs).getD (Json.str "?")⟩ := by
  unfold extract_fields at h
  split at h
  case _ => cases h
  case _ msg_id hid =>
  rcases Json.get_ok_iff.mp hid with ⟨efs, henv, rfl⟩
  subst henv
  split at h
  case _ => cases h
  case _ _ hfr =>
  split at h
  case _ => cases h
  case _ msg_type hty =>
  rcases Json.get_ok_iff.mp hty with ⟨efs2, hobj2, rfl⟩
  rw [Json.obj.injEq] at hobj2
  subst hobj2
  split at h
  case _ => cases h
  case _ payload hp =>
  split at h
  case _ => cases h
  case _ subject hs =>
  split at h
  case _ => cases h
  case _ _ hb =>
  split at h
  case _ => cases h
  case _ _ hsl =>
  cases h
  exact ⟨_, rfl, rfl⟩

/-- Successful decoding (lines 94-108) forces the outer data to be a dict and
identifies the decoded envelope and extracted fields. -/
theorem decode_fields_ok {loads : String → Option Json} {data : Json} {dec : Decoded}
    (h : decode_fields loads data = .ok dec) :
    ∃ dfs efs, data = Json.obj dfs ∧
      dec.envelope = decode_envelope loads ((List.lookup "message" dfs).getD (Json.str "")) ∧
      dec.envelope = Json.obj efs ∧
      dec.msg_id = (List.lookup "id" efs).getD (Json.str "?") ∧
      dec.msg_type = (List.lookup "type" efs).getD (Json.str "?") := by
  unfold decode_fields at h
  split at h
  case _ => cases h
  case _ message_raw hm =>
    rcases Json.get_ok_iff.mp hm with ⟨dfs, rfl, rfl⟩
    rcases extract_fields_ok h with ⟨efs, henv, rfl⟩
    exact ⟨dfs, efs, rfl, rfl, henv, rfl, rfl⟩

/-- Successful `do_POST` on a structurally parseable body decomposes into its
pipeline stages and pins down every component of the result. -/
theorem do_POST_ok {loads : String → Option Json} {handler : Option String}
    {run : SubprocOutcome} {agent ts hex : String} {del : Bool}
    {inbox : List Json} {data : Json} {r : PostResult}
    (h : do_POST loads handler run agent ts hex del inbox (some data) = .ok r) :
    ∃ dec replies, decode_fields loads data = .ok dec ∧
      reply_phase agent ts hex del dec.envelope
        (dispatch_to_handler loads handler run dec.envelope).1 dec.msg_type = .ok replies ∧
      r = { status := 202,
            body := Json.dumps (Json.obj [("ok", Json.bool true), ("id", dec.msg_id)]),
            inbox := inbox_append inbox dec.envelope,
            auditLog := (log_message agent ts dec.envelope "received").toList,
            handlerRuns := (dispatch_to_handler loads handler run dec.envelope).2,
            repliesSent := replies } := by
  have h2 : handle_parsed loads handler run agent ts hex del inbox data = .ok r := h
  unfold handle_parsed at h2
  split at h2
  case _ => cases h2
  case _ dec hdec =>
    split at h2
    case _ => cases h2
    case _ replies hrep =>
      cases h2
      exact ⟨dec, replies, hdec, hrep, rfl⟩

/-! ### Claim theorems -/

/-- A nested-`loads` stand-in for witnesses: a parser that accepts nothing
(every concrete string fed to it in the witnesses is not valid JSON). -/
def loads0 : String → Option Json := fun _ => none

/-- C8: when the outer POST body is not valid JSON, the endpoint returns 400
immediately: no audit entry is written, the inbox is unchanged, the handler is
never invoked, and no reply is sent — whatever the handler configuration,
subprocess behavior, or delivery outcome would have been. -/
theorem C8_malformed_outer_short_circuits (loads : String → Option Json)
    (handler : Option String) (run : SubprocOutcome) (agent ts hex : String)
    (del : Bool) (inbox : List Json) :
    do_POST loads handler run agent ts hex del inbox none =
      .ok { status := 400,
            body := "\x7b" ++ dquot ++ "error" ++ dquot ++ ":"
              ++ dquot ++ "invalid JSON" ++ dquot ++ "\x7d",
            inbox := inbox, auditLog := [], handlerRuns := [], repliesSent := [] } := rfl

/-- Any number of receipts starting from the empty inbox leave exactly the last
`MAX_INBOX` envelopes, oldest first. -/
theorem inbox_fold_eq_drop (es : List Json) :
    List.foldl inbox_append [] es = es.drop (es.length - MAX_INBOX) := by
  induction es using List.reverseRecOn with
  | nil => simp
  | append_singleton es x ih =>
    rw [List.foldl_append, List.foldl_cons, List.foldl_nil, ih]
    unfold inbox_append
    by_cases hc : es.length < MAX_INBOX
    · have h1 : es.length - MAX_INBOX = 0 := by omega
      have h2 : (es ++ [x]).length - MAX_INBOX = 0 := by
        simp only [List.length_append, List.length_singleton]; omega
      have hno : ¬ (es.drop (es.length - MAX_INBOX) ++ [x]).length > MAX_INBOX := by
        simp only [h1, List.drop_zero, List.length_append, List.length_singleton]
        omega
      rw [if_neg hno, h1, h2, List.drop_zero, List.drop_zero]
    · have hble : MAX_INBOX ≤ es.length := by omega
      have hlen : (es.drop (es.length - MAX_INBOX)).length = MAX_INBOX := by
        rw [List.length_drop]; omega
      have hgt : (es.drop (es.length - MAX_INBOX) ++ [x]).length > MAX_INBOX := by
        simp only [List.length_append, List.length_singleton, hlen]; omega
      rw [if_pos hgt]
      have hne : es.drop (es.length - MAX_INBOX) ≠ [] := by
        intro hnil
        rw [hnil] at hlen
        simp [MAX_INBOX] at hlen
      rw [List.tail_append_of_ne_nil hne, List.tail_drop]
      have harith : es.length - MAX_INBOX + 1 = es.length + 1 - MAX_INBOX := by omega
      have hle2 : es.length + 1 - MAX_INBOX ≤ es.length := by
        have : 1 ≤ MAX_INBOX := by simp [MAX_INBOX]
        omega
      rw [harith, ← List.drop_append_of_le_length hle2]
      simp only [List.length_append, List.length_singleton]

/-- C5: the inbox buffer holds at most `MAX_INBOX = 100` entries after any
sequence of receipts; each receipt appends the new envelope at the end (with no
eviction while under capacity, and eviction of exactly the oldest entry at
capacity); and after `MAX_INBOX + 1` distinct receipts into an empty buffer the
first-received envelope is absent while the remaining 100 stand in arrival
order. -/
theorem C5_inbox_bounded_fifo (es : List Json) (e0 : Json)
    (hlen : es.length = MAX_INBOX + 1) (hnd : es.Nodup) (h0 : es.head? = some e0) :
    (∀ inbox x, inbox.length ≤ MAX_INBOX → (inbox_append inbox x).length ≤ MAX_INBOX) ∧
    (∀ inbox x, inbox.length < MAX_INBOX → inbox_append inbox x = inbox ++ [x]) ∧
    (∀ inbox x, inbox.length = MAX_INBOX → inbox_append inbox x = inbox.tail ++ [x]) ∧
    List.foldl inbox_append [] es = es.tail ∧
    e0 ∉ es.tail := by
  refine ⟨?_, ?_, ?_, ?_, ?_⟩
  · intro inbox x h
    unfold inbox_append
    by_cases hc : (inbox ++ [x]).length > MAX_INBOX
    · simp only [hc, if_pos]
      rw [List.length_tail]
      simp only [List.length_append, List.length_singleton]
      omega
    · simp only [hc, if_neg, not_false_iff]
      simp only [List.length_append, List.length_singleton] at hc ⊢
      omega
  · intro inbox x h
    unfold inbox_append
    have hno : ¬ (inbox ++ [x]).length > MAX_INBOX := by
      simp only [List.length_append, List.length_singleton]; omega
    rw [if_neg hno]
  · intro inbox x h
    unfold inbox_append
    have hgt : (inbox ++ [x]).length > MAX_INBOX := by
      simp only [List.length_append, List.length_singleton]; omega
    have hne : inbox ≠ [] := by
      intro hnil; rw [hnil] at h; simp [MAX_INBOX] at h
    rw [if_pos hgt]
    exact List.tail_append_of_ne_nil hne
  · rw [inbox_fold_eq_drop, hlen]
    simp [List.drop_one]
  · rcases es with _ | ⟨a, as⟩
    · simp at h0
    · simp only [List.head?_cons, Option.some.injEq] at h0
      subst h0
      simp only [List.tail_cons]
      exact (List.nodup_cons.mp hnd).1

/-- Shared computation: when the `message` field reads as a string (directly,
or as the `""` default when absent) that fails nested parsing, `do_POST`
completes in full with the synthetic envelope and a 202 acknowledgment. -/
theorem do_POST_synthetic (loads : String → Option Json) (handler : Option String)
    (run : SubprocOutcome) (agent ts hex : String)
    (del : Bool) (inbox : List Json) (dfs : List (String × Json)) (raw : String)
    (hmsg : (List.lookup "message" dfs).getD (Json.str "") = Json.str raw)
    (hraw : loads raw = none) :
    do_POST loads handler run agent ts hex del inbox (some (Json.obj dfs)) =
      .ok { status := 202,
            body := Json.dumps (Json.obj [("ok", Json.bool true), ("id", Json.str "?")]),
            inbox := inbox_append inbox
              (Json.obj [("payload", Json.obj [("body", Json.str raw)])]),
            auditLog := (log_message agent ts
              (Json.obj [("payload", Json.obj [("body", Json.str raw)])]) "received").toList,
            handlerRuns := (dispatch_to_handler loads handler run
              (Json.obj [("payload", Json.obj [("body", Json.str raw)])])).2,
            repliesSent := [] } := by
  have hdec : decode_fields loads (Json.obj dfs) =
      .ok ⟨Json.obj [("payload", Json.obj [("body", Json.str raw)])],
           Json.str "?", Json.str "?"⟩ := by
    unfold decode_fields
    have hget : (Json.obj dfs).get "message" (Json.str "") = .ok (Json.str raw) := by
      simp [Json.get, hmsg]
    rw [hget]
    show extract_fields (decode_envelope loads (Json.str raw)) = _
    have : decode_envelope loads (Json.str raw) =
        Json.obj [("payload", Json.obj [("body", Json.str raw)])] := by
      simp [decode_envelope, hraw]
    rw [this]
    rfl
  have hrep : reply_phase agent ts hex del
      (Json.obj [("payload", Json.obj [("body", Json.str raw)])])
      (dispatch_to_handler loads handler run
        (Json.obj [("payload", Json.obj [("body", Json.str raw)])])).1
      (Json.str "?") = .ok [] := by
    unfold reply_phase
    have : isRequestType (Json.str "?") = false := rfl
    simp [this]
  show handle_parsed loads handler run agent ts hex del inbox (Json.obj dfs) = _
  unfold handle_parsed
  rw [hdec]
  show (match reply_phase agent ts hex del
      (Json.obj [("payload", Json.obj [("body", Json.str raw)])])
      (dispatch_to_handler loads handler run
        (Json.obj [("payload", Json.obj [("body", Json.str raw)])])).1
      (Json.str "?") with
    | .error e => Except.error e
    | .ok replies => _) = _
  rw [hrep]

/-- C6: a POST whose outer body is valid JSON and whose `message` field is a
string that is not itself valid JSON is not rejected: the codec substitutes the
synthetic envelope `\x7b"payload": \x7b"body": <raw text>\x7d\x7d`, the request
is acknowledged with 202, and exactly that synthetic envelope is the one
appended to the inbox. -/
theorem C6_malformed_nested_message_degrades (loads : String → Option Json)
    (handler : Option String) (run : SubprocOutcome) (agent ts hex : String)
    (del : Bool) (inbox : List Json) (dfs : List (String × Json)) (raw : String)
    (hmsg : List.lookup "message" dfs = some (Json.str raw))
    (hraw : loads raw = none) :
    ∃ r, do_POST loads handler run agent ts hex del inbox (some (Json.obj dfs)) = .ok r ∧
      r.status = 202 ∧
      r.inbox = inbox_append inbox
        (Json.obj [("payload", Json.obj [("body", Json.str raw)])]) :=
  ⟨_, do_POST_synthetic loads handler run agent ts hex del inbox dfs raw
      (by rw [hmsg]; rfl) hraw, rfl, rfl⟩

/-- C6 witness at a concrete request: outer body
`\x7b"message": "notjson"\x7d` with a parser rejecting `"notjson"`. -/
theorem C6_witness :
    ∃ r, do_POST loads0 none SubprocOutcome.raised "a" "t" "h" true []
        (some (Json.obj [("message", Json.str "notjson")])) = .ok r ∧
      r.status = 202 ∧
      r.inbox = inbox_append []
        (Json.obj [("payload", Json.obj [("body", Json.str "notjson")])]) :=
  C6_malformed_nested_message_degrades loads0 none .raised "a" "t" "h" true []
    [("message", Json.str "notjson")] "notjson" rfl rfl

/-- Concrete arrival sequence for the C5 witness: `MAX_INBOX + 1 = 101`
pairwise-distinct envelopes. -/
def c5_receipts : List Json :=
  (List.range (MAX_INBOX + 1)).map fun n => Json.num (Int.ofNat n)

/-- C5 witness: the concrete 101-receipt sequence satisfies the hypotheses, and
the theorem yields the bound, the append behavior, and the FIFO eviction. -/
theorem C5_witness :
    c5_receipts.length = MAX_INBOX + 1 ∧ c5_receipts.Nodup ∧
    c5_receipts.head? = some (Json.num 0) ∧
    List.foldl inbox_append [] c5_receipts = c5_receipts.tail ∧
    Json.num 0 ∉ c5_receipts.tail := by
  have h1 : c5_receipts.length = MAX_INBOX + 1 := by
    unfold c5_receipts
    rw [List.length_map, List.length_range]
  have h2 : c5_receipts.Nodup := by
    unfold c5_receipts
    apply List.Nodup.map
    · intro a b hab
      injection hab with h
      exact Int.ofNat.inj h
    · exact List.nodup_range (MAX_INBOX + 1)
  have h3 : c5_receipts.head? = some (Json.num 0) := rfl
  have hmain := C5_inbox_bounded_fifo c5_receipts (Json.num 0) h1 h2 h3
  exact ⟨h1, h2, h3, hmain.2.2.2.1, hmain.2.2.2.2⟩

/-- C1 is falsified by the program: `[]` is valid JSON, yet `do_POST` on it
raises an uncaught `AttributeError` at `data.get("message", "")` (a list has no
`.get`), so the endpoint never returns the claimed 202 acknowledgment. -/
theorem C1_counterexample :
    do_POST loads0 none SubprocOutcome.raised "agent" "ts" "hex" true []
        (some (Json.arr [])) = .error PyErr.attributeError ∧
    ¬ ∃ r, do_POST loads0 none SubprocOutcome.raised "agent" "ts" "hex" true []
        (some (Json.arr [])) = .ok r ∧ r.status = 202 := by
  have h : do_POST loads0 none SubprocOutcome.raised "agent" "ts" "hex" true []
      (some (Json.arr [])) = .error PyErr.attributeError := rfl
  refine ⟨h, ?_⟩
  rintro ⟨r, hr, -⟩
  rw [h] at hr
  cases hr

/-- C1 (amended): whenever processing of a POST whose outer body parsed as
valid JSON completes without an uncaught exception, the endpoint returns 202
with body `\x7b"ok": true, "id": <envelope id>\x7d` — independently of the
handler configuration, the subprocess outcome, and the reply delivery outcome.
(The original claim's "for every valid-JSON outer body" fails: bodies whose
decoded envelope is not an object crash before acknowledgment, as the
counterexample shows.) -/
theorem C1_amended_ack_decoupled (loads : String → Option Json)
    (handler : Option String) (run : SubprocOutcome) (agent ts hex : String)
    (del : Bool) (inbox : List Json) (data : Json) (r : PostResult)
    (h : do_POST loads handler run agent ts hex del inbox (some data) = .ok r) :
    r.status = 202 ∧
    ∃ msgId, r.body = Json.dumps (Json.obj [("ok", Json.bool true), ("id", msgId)]) := by
  rcases do_POST_ok h with ⟨dec, replies, hdec, hrep, rfl⟩
  exact ⟨rfl, dec.msg_id, rfl⟩

/-- C1 witness: a concrete completing request (message is an unparseable
string; no handler; the subprocess and delivery parameters are irrelevant). -/
theorem C1_witness :
    ∃ r, do_POST loads0 none SubprocOutcome.raised "a" "t" "h" true []
        (some (Json.obj [("message", Json.str "x")])) = .ok r ∧
      r.status = 202 ∧
      ∃ msgId, r.body = Json.dumps (Json.obj [("ok", Json.bool true), ("id", msgId)]) :=
  ⟨_, rfl, C1_amended_ack_decoupled loads0 none SubprocOutcome.raised "a" "t" "h" true []
    (Json.obj [("message", Json.str "x")]) _ rfl⟩

/-- C2 is falsified by the program: `\x7b"message": 42\x7d` is valid JSON (so
the claim says handling completes without failure), yet `do_POST` raises an
uncaught `AttributeError` at `envelope.get("id", "?")` because the decoded
envelope is the integer 42. -/
theorem C2_counterexample :
    do_POST loads0 none SubprocOutcome.raised "agent" "ts" "hex" true []
        (some (Json.obj [("message", Json.num 42)])) = .error PyErr.attributeError ∧
    ¬ ∃ r, do_POST loads0 none SubprocOutcome.raised "agent" "ts" "hex" true []
        (some (Json.obj [("message", Json.num 42)])) = .ok r := by
  have h : do_POST loads0 none SubprocOutcome.raised "agent" "ts" "hex" true []
      (some (Json.obj [("message", Json.num 42)])) = .error PyErr.attributeError := rfl
  refine ⟨h, ?_⟩
  rintro ⟨r, hr⟩
  rw [h] at hr
  cases hr

/-- Field extraction raises `AttributeError` as soon as the decoded envelope is
not a dict (line 102, `envelope.get("id", "?")`). -/
theorem extract_fields_nonobj {env : Json} (h : ∀ efs, env ≠ Json.obj efs) :
    extract_fields env = .error PyErr.attributeError := by
  cases env
  case obj fs => exact absurd rfl (h fs)
  all_goals rfl

/-- C2 (amended): a POST is answered with status 400 exactly when the outer
body is not valid JSON (no valid-JSON body is ever answered 400), and handling
completes — with 202 — when the outer body is an object whose `message` field
is absent or holds a string the nested parse rejects; but, contrary to the
original claim's "any JSON value", a `message` field that decodes to a
non-object (number, array, null, boolean, string-encoding-a-non-object) makes
handling raise an uncaught `AttributeError` instead of completing. -/
theorem C2_amended_outer_json_gate (loads : String → Option Json)
    (handler : Option String) (run : SubprocOutcome) (agent ts hex : String)
    (del : Bool) (inbox : List Json) :
    (∀ bodyParse r,
        do_POST loads handler run agent ts hex del inbox bodyParse = .ok r →
        (r.status = 400 ↔ bodyParse = none)) ∧
    (∃ r, do_POST loads handler run agent ts hex del inbox none = .ok r ∧
        r.status = 400) ∧
    (∀ dfs, (∀ efs,
        decode_envelope loads ((List.lookup "message" dfs).getD (Json.str ""))
          ≠ Json.obj efs) →
        do_POST loads handler run agent ts hex del inbox (some (Json.obj dfs)) =
          .error PyErr.attributeError) ∧
    (∀ dfs raw, (List.lookup "message" dfs).getD (Json.str "") = Json.str raw →
        loads raw = none →
        ∃ r, do_POST loads handler run agent ts hex del inbox
            (some (Json.obj dfs)) = .ok r ∧ r.status = 202) := by
  refine ⟨?_, ⟨_, rfl, rfl⟩, ?_, ?_⟩
  · intro bodyParse r h
    cases bodyParse with
    | none =>
      have h400 : do_POST loads handler run agent ts hex del inbox none =
          .ok { status := 400,
                body := "\x7b" ++ dquot ++ "error" ++ dquot ++ ":"
                  ++ dquot ++ "invalid JSON" ++ dquot ++ "\x7d",
                inbox := inbox, auditLog := [], handlerRuns := [],
                repliesSent := [] } := rfl
      rw [h400] at h
      cases h
      simp
    | some data =>
      rcases do_POST_ok h with ⟨dec, replies, hdec, hrep, rfl⟩
      simp
  · intro dfs hnonobj
    have hdec : decode_fields loads (Json.obj dfs) = .error PyErr.attributeError := by
      unfold decode_fields
      show (match (Json.obj dfs).get "message" (Json.str "") with
        | .error e => Except.error e
        | .ok message_raw => extract_fields (decode_envelope loads message_raw)) = _
      show extract_fields (decode_envelope loads
        ((List.lookup "message" dfs).getD (Json.str ""))) = _
      exact extract_fields_nonobj hnonobj
    show handle_parsed loads handler run agent ts hex del inbox (Json.obj dfs) = _
    unfold handle_parsed
    rw [hdec]
  · intro dfs raw hmsg hraw
    exact ⟨_, do_POST_synthetic loads handler run agent ts hex del inbox dfs raw
      hmsg hraw, rfl⟩

/-- C2 amended witness: the 400 branch and the completing branch at concrete
inputs, through the amended theorem. -/
theorem C2_witness :
    (∃ r, do_POST loads0 none SubprocOutcome.raised "a" "t" "h" true [] none = .ok r ∧
        r.status = 400) ∧
    (∃ r, do_POST loads0 none SubprocOutcome.raised "a" "t" "h" true []
        (some (Json.obj [("message", Json.str "zz")])) = .ok r ∧ r.status = 202) :=
  ⟨(C2_amended_outer_json_gate loads0 none SubprocOutcome.raised "a" "t" "h" true []).2.1,
   (C2_amended_outer_json_gate loads0 none SubprocOutcome.raised "a" "t" "h" true []).2.2.2
     [("message", Json.str "zz")] "zz" rfl rfl⟩

/-- A successful `_send_reply` forces the original envelope, its payload (when
present), and the handler response to be dicts, and determines every field of
the delivered attempt. -/
theorem send_reply_ok {agent ts hex : String} {del : Bool}
    {original response reply_to : Json} {att : ReplyAttempt}
    (h : send_reply agent ts hex del original response reply_to = .ok att) :
    ∃ ofs pfs rfs, original = Json.obj ofs ∧
      (List.lookup "payload" ofs).getD (Json.obj []) = Json.obj pfs ∧
      response = Json.obj rfs ∧
      att.envelope = Json.obj [
        ("protocol", Json.str "mesh/1.0"),
        ("id", Json.str ("msg_" ++ hex)),
        ("timestamp", Json.str ts),
        ("from", Json.str agent),
        ("to", (List.lookup "from" ofs).getD (Json.str "?")),
        ("type", Json.str "response"),
        ("correlationId", (List.lookup "id" ofs).getD Json.null),
        ("replyContext", (List.lookup "replyContext" ofs).getD Json.null),
        ("payload", Json.obj [
          ("subject", Json.str ("Re: " ++
            pyStr ((List.lookup "subject" pfs).getD (Json.str "")))),
          ("body", (List.lookup "body" rfs).getD
            (Json.str (Json.dumps (Json.obj rfs))))])] ∧
      att.wireBody = Json.dumps (Json.obj
        [("message", Json.str (Json.dumps att.envelope))]) ∧
      att.url = (reply_to.lookup "url").getD Json.null ∧
      att.delivered = del := by
  unfold send_reply at h
  split at h
  case _ => cases h
  case _ origFrom hfrom =>
  rcases Json.get_ok_iff.mp hfrom with ⟨ofs, horig, rfl⟩
  subst horig
  split at h
  case _ => cases h
  case _ origId hid =>
  rcases Json.get_ok_iff.mp hid with ⟨ofs2, hobj2, rfl⟩
  rw [Json.obj.injEq] at hobj2
  subst hobj2
  split at h
  case _ => cases h
  case _ origCtx hctx =>
  rcases Json.get_ok_iff.mp hctx with ⟨ofs3, hobj3, rfl⟩
  rw [Json.obj.injEq] at hobj3
  subst hobj3
  split at h
  case _ => cases h
  case _ origPayload hpay =>
  rcases Json.get_ok_iff.mp hpay with ⟨ofs4, hobj4, rfl⟩
  rw [Json.obj.injEq] at hobj4
  subst hobj4
  split at h
  case _ => cases h
  case _ origSubject hsubj =>
  rcases Json.get_ok_iff.mp hsubj with ⟨pfs, hpobj, rfl⟩
  split at h
  case _ => cases h
  case _ bodyVal hbody =>
  rcases Json.get_ok_iff.mp hbody with ⟨rfs, hrobj, rfl⟩
  subst hrobj
  cases h
  exact ⟨_, pfs, rfs, rfl, hpobj, rfl, rfl, rfl, rfl, rfl⟩

/-- Every attempt a successful reply phase produced came from `send_reply`
applied to the envelope's `replyTo` dict. -/
theorem reply_phase_mem {agent ts hex : String} {del : Bool}
    {envelope response msg_type : Json} {replies : List ReplyAttempt}
    {att : ReplyAttempt}
    (h : reply_phase agent ts hex del envelope response msg_type = .ok replies)
    (hm : att ∈ replies) :
    ∃ reply_to, send_reply agent ts hex del envelope response reply_to = .ok att := by
  unfold reply_phase at h
  split at h
  case _ =>
    split at h
    case _ => cases h
    case _ reply_to hrt =>
      split at h
      case _ =>
        split at h
        case _ => cases h
        case _ url hurl =>
          split at h
          case _ =>
            split at h
            case _ => cases h
            case _ att2 hsend =>
              cases h
              rw [List.mem_singleton] at hm
              subst hm
              exact ⟨reply_to, hsend⟩
          case _ =>
            cases h
            simp at hm
      case _ =>
        cases h
        simp at hm
  case _ =>
    cases h
    simp at hm

/-- C3: every reply `do_POST` sends carries the constructed response envelope:
`id` is the `msg_`-prefixed fresh nonce, `timestamp` the clock reading, `from`
this agent, `to` the original sender (`from` field, `"?"` when absent),
`type = "response"`, `correlationId` = the original envelope's `id` (None when
absent), `replyContext` passed through unchanged, `payload.subject` =
`"Re: " + original payload.subject` (for string subjects), `payload.body` =
the handler response's `body` field or, failing that, the whole response
JSON-serialized; and the delivery body wraps the JSON-encoded reply envelope
in an outer object under `message`. -/
theorem C3_reply_envelope_shape (loads : String → Option Json)
    (handler : Option String) (run : SubprocOutcome) (agent ts hex : String)
    (del : Bool) (inbox : List Json) (data : Json) (r : PostResult)
    (att : ReplyAttempt)
    (h : do_POST loads handler run agent ts hex del inbox (some data) = .ok r)
    (hatt : att ∈ r.repliesSent) :
    ∃ dec, decode_fields loads data = .ok dec ∧
    ∃ ofs pfs rfs, dec.envelope = Json.obj ofs ∧
      (List.lookup "payload" ofs).getD (Json.obj []) = Json.obj pfs ∧
      (dispatch_to_handler loads handler run dec.envelope).1 = Json.obj rfs ∧
      att.envelope = Json.obj [
        ("protocol", Json.str "mesh/1.0"),
        ("id", Json.str ("msg_" ++ hex)),
        ("timestamp", Json.str ts),
        ("from", Json.str agent),
        ("to", (List.lookup "from" ofs).getD (Json.str "?")),
        ("type", Json.str "response"),
        ("correlationId", (List.lookup "id" ofs).getD Json.null),
        ("replyContext", (List.lookup "replyContext" ofs).getD Json.null),
        ("payload", Json.obj [
          ("subject", Json.str ("Re: " ++
            pyStr ((List.lookup "subject" pfs).getD (Json.str "")))),
          ("body", (List.lookup "body" rfs).getD
            (Json.str (Json.dumps (Json.obj rfs))))])] ∧
      (∀ s, (List.lookup "subject" pfs).getD (Json.str "") = Json.str s →
        Json.lookup ((Json.lookup att.envelope "payload").getD Json.null) "subject"
          = some (Json.str ("Re: " ++ s))) ∧
      att.wireBody = Json.dumps (Json.obj
        [("message", Json.str (Json.dumps att.envelope))]) ∧
      att.delivered = del := by
  rcases do_POST_ok h with ⟨dec, replies, hdec, hrep, rfl⟩
  rcases reply_phase_mem hrep hatt with ⟨reply_to, hsend⟩
  rcases send_reply_ok hsend with
    ⟨ofs, pfs, rfs, horig, hpobj, hresp, henv, hwire, hurl, hdel⟩
  refine ⟨dec, hdec, ofs, pfs, rfs, horig, hpobj, hresp, henv, ?_, hwire, hdel⟩
  intro s hs
  rw [hs] at henv
  rw [henv]
  rfl

/-- Inbound request for the C3 witness: a `request`-type envelope from `alice`
with a callback and subject `hi`, answered by a handler printing `ok`. -/
def c3_data : Json := Json.obj [("message", Json.obj [
  ("id", Json.str "m1"), ("from", Json.str "alice"), ("type", Json.str "request"),
  ("replyTo", Json.obj [("url", Json.str "http://cb"), ("token", Json.str "tk")]),
  ("payload", Json.obj [("subject", Json.str "hi")])])]

/-- C3 witness: the hypotheses hold at the concrete request `c3_data` (a reply
is actually attempted there), and the theorem describes its envelope. -/
theorem C3_witness :
    ∃ r att, (do_POST loads0 (some "./h") (SubprocOutcome.completed 0 "ok")
        "bob" "T" "abcd" true [] (some c3_data) = .ok r) ∧ att ∈ r.repliesSent ∧
      (∃ dec, decode_fields loads0 c3_data = .ok dec ∧
       ∃ ofs pfs rfs, dec.envelope = Json.obj ofs ∧
        (List.lookup "payload" ofs).getD (Json.obj []) = Json.obj pfs ∧
        (dispatch_to_handler loads0 (some "./h") (SubprocOutcome.completed 0 "ok")
          dec.envelope).1 = Json.obj rfs ∧
        att.envelope = Json.obj [
          ("protocol", Json.str "mesh/1.0"),
          ("id", Json.str ("msg_" ++ "abcd")),
          ("timestamp", Json.str "T"),
          ("from", Json.str "bob"),
          ("to", (List.lookup "from" ofs).getD (Json.str "?")),
          ("type", Json.str "response"),
          ("correlationId", (List.lookup "id" ofs).getD Json.null),
          ("replyContext", (List.lookup "replyContext" ofs).getD Json.null),
          ("payload", Json.obj [
            ("subject", Json.str ("Re: " ++
              pyStr ((List.lookup "subject" pfs).getD (Json.str "")))),
            ("body", (List.lookup "body" rfs).getD
              (Json.str (Json.dumps (Json.obj rfs))))])] ∧
        (∀ s, (List.lookup "subject" pfs).getD (Json.str "") = Json.str s →
          Json.lookup ((Json.lookup att.envelope "payload").getD Json.null) "subject"
            = some (Json.str ("Re: " ++ s))) ∧
        att.wireBody = Json.dumps (Json.obj
          [("message", Json.str (Json.dumps att.envelope))]) ∧
        att.delivered = true) :=
  ⟨_, _, rfl, List.mem_singleton_self _,
    C3_reply_envelope_shape loads0 (some "./h") (SubprocOutcome.completed 0 "ok")
      "bob" "T" "abcd" true [] c3_data _ _ rfl (List.mem_singleton_self _)⟩

/-- The reply-routing precondition that lines 121-122 test on the decoded
envelope: `replyTo` maps to a dict carrying a truthy `url` (spec: "the url is
present"; the code's test is Python truthiness, so an empty-string url counts
as absent). -/
def ReplyCond (efs : List (String × Json)) : Prop :=
  ∃ rfs u, List.lookup "replyTo" efs = some (Json.obj rfs) ∧
    List.lookup "url" rfs = some u ∧ u.truthy = true

/-- A successful reply phase attempts a reply exactly when the dispatcher
response is truthy, the envelope type equals `"request"`, and `ReplyCond`
holds. -/
theorem reply_phase_ne_nil_iff {agent ts hex : String} {del : Bool}
    {efs : List (String × Json)} {response msg_type : Json}
    {replies : List ReplyAttempt}
    (h : reply_phase agent ts hex del (Json.obj efs) response msg_type = .ok replies) :
    replies ≠ [] ↔
      (response.truthy = true ∧ isRequestType msg_type = true ∧ ReplyCond efs) := by
  unfold reply_phase at h
  split at h
  case isFalse hcond =>
    cases h
    constructor
    · intro hne; exact absurd rfl hne
    · rintro ⟨h1, h2, -⟩; exact absurd ⟨h1, h2⟩ hcond
  case isTrue hcond =>
    split at h
    case _ e heq => simp [Json.get] at heq
    case _ rt heq =>
      rcases Json.get_ok_iff.mp heq with ⟨efs2, hobj, hrt⟩
      rw [Json.obj.injEq] at hobj
      subst hobj
      split at h
      case isTrue htruthy =>
        split at h
        case _ e hu => cases h
        case _ url hu =>
          rcases Json.get_ok_iff.mp hu with ⟨rts, hrtobj, hurl⟩
          split at h
          case isTrue hut =>
            split at h
            case _ => cases h
            case _ att hsend =>
              cases h
              constructor
              · intro _
                refine ⟨hcond.1, hcond.2, ?_⟩
                cases hlk : List.lookup "replyTo" efs with
                | none =>
                  exfalso
                  rw [hlk, Option.getD_none] at hrt
                  rw [hrt] at hrtobj
                  rw [Json.obj.injEq] at hrtobj
                  rw [← hrtobj] at hurl
                  simp only [List.lookup_nil, Option.getD_none] at hurl
                  rw [hurl] at hut
                  simp [Json.truthy] at hut
                | some v =>
                  rw [hlk, Option.getD_some] at hrt
                  cases hul : List.lookup "url" rts with
                  | none =>
                    exfalso
                    rw [hul, Option.getD_none] at hurl
                    rw [hurl] at hut
                    simp [Json.truthy] at hut
                  | some u =>
                    refine ⟨rts, u, ?_, hul, ?_⟩
                    · rw [hlk, ← hrt, hrtobj]
                    · rw [hul, Option.getD_some] at hurl
                      rw [← hurl]
                      exact hut
              · intro _
                simp
          case isFalse hut =>
            cases h
            constructor
            · intro hne; exact absurd rfl hne
            · rintro ⟨-, -, rfs0, u, hlk, hul, hutr⟩
              rw [hlk, Option.getD_some] at hrt
              rw [hrt] at hrtobj
              rw [Json.obj.injEq] at hrtobj
              rw [← hrtobj, hul, Option.getD_some] at hurl
              rw [hurl] at hut
              exact absurd hutr hut
      case isFalse htruthy =>
        cases h
        constructor
        · intro hne; exact absurd rfl hne
        · rintro ⟨-, -, rfs0, u, hlk, hul, hutr⟩
          rw [hlk, Option.getD_some] at hrt
          have hne0 : rfs0 ≠ [] := by
            intro hnil
            rw [hnil] at hul
            simp at hul
          rw [hrt] at htruthy
          simp only [Json.truthy, Bool.not_eq_true] at htruthy
          have hemp : rfs0.isEmpty = true := by
            revert htruthy
            cases rfs0.isEmpty <;> simp
          exact absurd (List.isEmpty_iff.mp hemp) hne0

/-- C4: on every completed POST, a reply is attempted iff all three hold — the
decoded envelope's `type` equals `"request"`, the dispatcher returned a
non-empty (Python-truthy) response, and `envelope.replyTo.url` is present (a
dict-valued `replyTo` with a truthy `url`); and with no handler configured the
dispatcher always yields no response, so no reply is ever sent regardless of
`replyTo` presence. -/
theorem C4_reply_routing_gate (loads : String → Option Json)
    (handler : Option String) (run : SubprocOutcome) (agent ts hex : String)
    (del : Bool) (inbox : List Json) (data : Json) (r : PostResult)
    (h : do_POST loads handler run agent ts hex del inbox (some data) = .ok r) :
    (∃ dec efs, decode_fields loads data = .ok dec ∧ dec.envelope = Json.obj efs ∧
      (r.repliesSent ≠ [] ↔
        (isRequestType dec.msg_type = true ∧
         (dispatch_to_handler loads handler run dec.envelope).1.truthy = true ∧
         ReplyCond efs))) ∧
    (∀ envelope2 run2, (dispatch_to_handler loads none run2 envelope2).1 = Json.null) ∧
    (handler = none → r.repliesSent = []) := by
  rcases do_POST_ok h with ⟨dec, replies, hdec, hrep, rfl⟩
  rcases decode_fields_ok hdec with ⟨dfs, efs, hdata, hde, henv, hid, hty⟩
  refine ⟨⟨dec, efs, hdec, henv, ?_⟩, fun e2 r2 => rfl, ?_⟩
  · rw [henv] at hrep
    have hiff := reply_phase_ne_nil_iff hrep
    rw [show (dispatch_to_handler loads handler run (Json.obj efs)).1 =
        (dispatch_to_handler loads handler run dec.envelope).1 from by rw [henv]] at hiff
    rw [hiff]
    constructor
    · rintro ⟨a, b, c⟩; exact ⟨b, a, c⟩
    · rintro ⟨a, b, c⟩; exact ⟨b, a, c⟩
  · intro hnone
    subst hnone
    have hnull : (dispatch_to_handler loads none run dec.envelope).1 = Json.null := rfl
    rw [hnull] at hrep
    unfold reply_phase at hrep
    simp only [Json.truthy, Bool.false_eq_true, false_and, if_false] at hrep
    cases hrep
    rfl

/-- C4 witness: at the concrete `c3_data` request the completed-POST hypothesis
holds, the gate is satisfied, and a reply is attempted. -/
theorem C4_witness :
    ∃ r, (do_POST loads0 (some "./h") (SubprocOutcome.completed 0 "ok")
        "bob" "T" "abcd" true [] (some c3_data) = .ok r) ∧
      ((∃ dec efs, decode_fields loads0 c3_data = .ok dec ∧
          dec.envelope = Json.obj efs ∧
          (r.repliesSent ≠ [] ↔
            (isRequestType dec.msg_type = true ∧
             (dispatch_to_handler loads0 (some "./h") (SubprocOutcome.completed 0 "ok")
               dec.envelope).1.truthy = true ∧
             ReplyCond efs))) ∧
       (∀ envelope2 run2,
          (dispatch_to_handler loads0 none run2 envelope2).1 = Json.null) ∧
       (some "./h" = none → r.repliesSent = [])) ∧
      r.repliesSent ≠ [] :=
  ⟨_, rfl,
    C4_reply_routing_gate loads0 (some "./h") (SubprocOutcome.completed 0 "ok")
      "bob" "T" "abcd" true [] c3_data _ rfl,
    by intro hnil; cases hnil⟩

/-- C9: a configured handler that exits 0 but prints only whitespace yields no
response — the same dispatch outcome as a raised/failed invocation — so no
reply is sent on any completing POST, even a request-type envelope with
`replyTo.url` present. -/
theorem C9_blank_output_is_no_response (loads : String → Option Json)
    (hh out : String) (hne : hh ≠ "") (hblank : pyStrip out = "") :
    (∀ envelope, (dispatch_to_handler loads (some hh)
        (SubprocOutcome.completed 0 out) envelope).1 = Json.null) ∧
    (∀ envelope, (dispatch_to_handler loads (some hh)
        (SubprocOutcome.completed 0 out) envelope).1 =
      (dispatch_to_handler loads (some hh) SubprocOutcome.raised envelope).1) ∧
    (∀ agent ts hex del inbox data r,
      do_POST loads (some hh) (SubprocOutcome.completed 0 out) agent ts hex del
          inbox (some data) = .ok r →
      r.repliesSent = []) := by
  have hdisp : ∀ envelope, dispatch_to_handler loads (some hh)
      (SubprocOutcome.completed 0 out) envelope = (Json.null, [envelope]) := by
    intro envelope
    unfold dispatch_to_handler
    dsimp only
    rw [if_neg hne]
    rw [if_neg (by rintro ⟨-, hcontra⟩; exact hcontra hblank)]
  have hdisp2 : ∀ envelope, dispatch_to_handler loads (some hh)
      SubprocOutcome.raised envelope = (Json.null, [envelope]) := by
    intro envelope
    unfold dispatch_to_handler
    dsimp only
    rw [if_neg hne]
  refine ⟨fun envelope => by rw [hdisp envelope],
          fun envelope => by rw [hdisp envelope, hdisp2 envelope], ?_⟩
  intro agent ts hex del inbox data r h
  rcases do_POST_ok h with ⟨dec, replies, hdec, hrep, rfl⟩
  rw [hdisp dec.envelope] at hrep
  unfold reply_phase at hrep
  simp only [Json.truthy, Bool.false_eq_true, false_and, if_false] at hrep
  cases hrep
  rfl

/-- C9 witness: handler `./h`, exit code 0, stdout `"  \n "`, against the
request-type `c3_data` envelope that carries `replyTo.url`: the dispatch result
is `None` and the completed POST sends no reply. -/
theorem C9_witness :
    (dispatch_to_handler loads0 (some "./h") (SubprocOutcome.completed 0 "  \n ")
        (Json.obj [])).1 = Json.null ∧
    (∃ r, do_POST loads0 (some "./h") (SubprocOutcome.completed 0 "  \n ")
        "bob" "T" "abcd" true [] (some c3_data) = .ok r ∧ r.repliesSent = []) := by
  have hthm := C9_blank_output_is_no_response loads0 "./h" "  \n "
    (by decide) rfl
  exact ⟨hthm.1 (Json.obj []),
    ⟨_, rfl, hthm.2.2 "bob" "T" "abcd" true [] c3_data _ rfl⟩⟩

/-- C10: with a (truthy) handler configured, every POST whose processing
completes records exactly one handler invocation, carrying exactly the decoded
envelope — whatever its `type` (request, response, notification, `"?"`, or a
degraded synthetic envelope); the type gates only the reply phase, never
dispatch. -/
theorem C10_dispatch_unconditional (loads : String → Option Json) (hh : String)
    (run : SubprocOutcome) (agent ts hex : String) (del : Bool)
    (inbox : List Json) (data : Json) (r : PostResult) (hne : hh ≠ "")
    (h : do_POST loads (some hh) run agent ts hex del inbox (some data) = .ok r) :
    ∃ dec, decode_fields loads data = .ok dec ∧ r.handlerRuns = [dec.envelope] := by
  rcases do_POST_ok h with ⟨dec, replies, hdec, hrep, rfl⟩
  refine ⟨dec, hdec, ?_⟩
  show (dispatch_to_handler loads (some hh) run dec.envelope).2 = [dec.envelope]
  unfold dispatch_to_handler
  dsimp only
  rw [if_neg hne]
  cases run with
  | raised => rfl
  | completed rc out =>
    dsimp only
    by_cases hc : rc = 0 ∧ pyStrip out ≠ ""
    · rw [if_pos hc]
      cases loads (pyStrip out) <;> rfl
    · rw [if_neg hc]

/-- C10 witness: a `notification`-type envelope with a handler configured and a
raising subprocess — the handler is still invoked exactly once with the decoded
envelope. -/
theorem C10_witness :
    ∃ r, do_POST loads0 (some "./h") SubprocOutcome.raised "a" "t" "h" true []
        (some (Json.obj [("message", Json.obj
          [("type", Json.str "notification"), ("id", Json.str "n1")])])) = .ok r ∧
      ∃ dec, decode_fields loads0 (Json.obj [("message", Json.obj
          [("type", Json.str "notification"), ("id", Json.str "n1")])]) = .ok dec ∧
        r.handlerRuns = [dec.envelope] :=
  ⟨_, rfl, C10_dispatch_unconditional loads0 "./h" SubprocOutcome.raised
    "a" "t" "h" true []
    (Json.obj [("message", Json.obj
      [("type", Json.str "notification"), ("id", Json.str "n1")])]) _
    (by decide) rfl⟩

/-- C7 is falsified on its truncation half: the audit entry stores
`payload.subject` verbatim (the only truncation in the program, `subject[:60]`,
is on the console print of line 108, not in `log_message`), so no fixed
constant bounds the logged subject's length over all envelopes. -/
theorem C7_counterexample :
    ¬ ∃ c : Nat, ∀ s : String, ∀ entry,
      log_message "agent" "ts"
          (Json.obj [("payload", Json.obj [("subject", Json.str s)])]) "received"
        = some entry →
      ∀ v, Json.lookup entry "subject" = some v →
      ∀ t, v = Json.str t → t.length ≤ c := by
  rintro ⟨c, hc⟩
  have hlen := hc (String.mk (List.replicate (c + 1) (Char.ofNat 97))) _ rfl _ rfl _ rfl
  have hlen2 : (String.mk (List.replicate (c + 1) (Char.ofNat 97))).length = c + 1 := by
    show (List.replicate (c + 1) (Char.ofNat 97)).length = c + 1
    simp
  omega

/-- C7 (amended): every audit entry written on receipt has exactly the fields
`ts, from, to, type, id, subject, status` in that order, and its `subject`
field is the envelope's `payload.subject` value verbatim — with the `"?"`,
agent-name, and `""` defaults of the source — NOT a truncated form: the logged
subject's length is unbounded, and only the console print truncates to 60
characters. -/
theorem C7_amended_log_entry_fields (agent ts status : String)
    (envelope entry : Json)
    (h : log_message agent ts envelope status = some entry) :
    ∃ efs pfs, envelope = Json.obj efs ∧
      (List.lookup "payload" efs).getD (Json.obj []) = Json.obj pfs ∧
      entry = Json.obj [
        ("ts", Json.str ts),
        ("from", (List.lookup "from" efs).getD (Json.str "?")),
        ("to", (List.lookup "to" efs).getD (Json.str agent)),
        ("type", (List.lookup "type" efs).getD (Json.str "?")),
        ("id", (List.lookup "id" efs).getD (Json.str "?")),
        ("subject", (List.lookup "subject" pfs).getD (Json.str "")),
        ("status", Json.str status)] := by
  unfold log_message at h
  cases hle : log_entry agent ts envelope status with
  | error e => rw [hle] at h; cases h
  | ok v =>
    rw [hle] at h
    simp only [Except.toOption, Option.some.injEq] at h
    subst h
    unfold log_entry at hle
    split at hle
    case _ => cases hle
    case _ f hf =>
    rcases Json.get_ok_iff.mp hf with ⟨efs, henv, rfl⟩
    subst henv
    split at hle
    case _ => cases hle
    case _ t ht =>
    rcases Json.get_ok_iff.mp ht with ⟨efs2, hobj2, rfl⟩
    rw [Json.obj.injEq] at hobj2
    subst hobj2
    split at hle
    case _ => cases hle
    case _ ty hty =>
    rcases Json.get_ok_iff.mp hty with ⟨efs3, hobj3, rfl⟩
    rw [Json.obj.injEq] at hobj3
    subst hobj3
    split at hle
    case _ => cases hle
    case _ i hi =>
    rcases Json.get_ok_iff.mp hi with ⟨efs4, hobj4, rfl⟩
    rw [Json.obj.injEq] at hobj4
    subst hobj4
    split at hle
    case _ => cases hle
    case _ p hp =>
    rcases Json.get_ok_iff.mp hp with ⟨efs5, hobj5, rfl⟩
    rw [Json.obj.injEq] at hobj5
    subst hobj5
    split at hle
    case _ => cases hle
    case _ subj hsubj =>
    rcases Json.get_ok_iff.mp hsubj with ⟨pfs, hpobj, rfl⟩
    cases hle
    exact ⟨_, pfs, rfl, hpobj, rfl⟩

/-- C7 witness: a concrete received envelope with sender, id, type, and a
subject; the audit entry has exactly the seven fields with the subject
verbatim. -/
theorem C7_witness :
    ∃ entry, log_message "bob" "TS"
        (Json.obj [("from", Json.str "alice"), ("id", Json.str "m9"),
          ("type", Json.str "notification"),
          ("payload", Json.obj [("subject", Json.str "status report")])])
        "received" = some entry ∧
      ∃ efs pfs,
        (Json.obj [("from", Json.str "alice"), ("id", Json.str "m9"),
          ("type", Json.str "notification"),
          ("payload", Json.obj [("subject", Json.str "status report")])])
          = Json.obj efs ∧
        (List.lookup "payload" efs).getD (Json.obj []) = Json.obj pfs ∧
        entry = Json.obj [
          ("ts", Json.str "TS"),
          ("from", (List.lookup "from" efs).getD (Json.str "?")),
          ("to", (List.lookup "to" efs).getD (Json.str "bob")),
          ("type", (List.lookup "type" efs).getD (Json.str "?")),
          ("id", (List.lookup "id" efs).getD (Json.str "?")),
          ("subject", (List.lookup "subject" pfs).getD (Json.str "")),
          ("status", Json.str "received")] :=
  ⟨_, rfl, C7_amended_log_entry_fields "bob" "TS" "received"
    (Json.obj [("from", Json.str "alice"), ("id", Json.str "m9"),
      ("type", Json.str "notification"),
      ("payload", Json.obj [("subject", Json.str "status report")])]) _ rfl⟩
